import Mathlib

/-!
Verification of the `Technical27/minecraft` control-plane daemon
(two variants: `barista-daemon/src/main.rs` and `mined/src/main.rs`).

The repository's `src/` holds only the two `main.rs` files; the library
crates (`barista`/`minelib`: `Command`, `CommandResponse`, `ServerData`,
CBOR serialization) and the `server.rs` module (`Server::start`, `::stop`,
`::update_status`) are referenced but absent, so those are modelled from
the spec, each marked `Modelled from the spec:` in its doc comment.
Everything else is embedded directly from the two `main.rs` files.

Machine conventions:
- A Rust panic (out-of-bounds `Vec` index, `.unwrap()` on `Err`) is the
  `Exec.crash` outcome; normal return is `Exec.ok`.
- Lock poisoning is a boolean on the shared `State`; `state.read()?` /
  `state.lock()?` on a poisoned lock yields the recoverable error that
  `?` propagates (`CmdError.lockPoisoned`), while `.unwrap()` on a
  poisoned lock crashes.
- The opaque per-server configuration is modelled as raw bytes
  (`List Nat`), opaque to the core as the spec requires.
-/

namespace Minecraft

/-- Resource status enumeration (spec §3; the concrete enum lives in the
absent library crate). -/
inductive Status
  | Stopped
  | Starting
  | Running
  | Stopping
deriving DecidableEq, Repr

/-- Modelled from the spec: `ServerData` (the per-resource snapshot) from
the absent library crate — stable integer id, opaque configuration,
current status. -/
structure ServerData where
  id : Nat
  config : List Nat
  status : Status
deriving DecidableEq, Repr

/-- Modelled from the spec: `ServerData::new(id, cfg)` from the absent
library crate; a fresh resource starts in status `Stopped`. -/
def ServerData.new (id : Nat) (cfg : List Nat) : ServerData :=
  { id := id, config := cfg, status := Status.Stopped }

/-- Modelled from the spec: the command-side error kind carried by
`CommandResponse::Error` (the enum lives in the absent library crate).
`lockPoisoned` is what the `From<PoisonError>` conversion behind `?`
produces; `startFailed`/`stopFailed` are the lifecycle collaborator's
failures; `resourceNotFound` is the typed absence the spec requires for
an invalid id. -/
inductive CmdError
  | lockPoisoned
  | startFailed
  | stopFailed
  | resourceNotFound
deriving DecidableEq, Repr

/-- The wire command (`Command` in the absent library crate; variant names
follow the code: `GetServers`, `StartServer`, `StopServer`). -/
inductive Command
  | GetServers
  | StartServer (id : Nat)
  | StopServer (id : Nat)
deriving DecidableEq, Repr

/-- The wire response (`CommandResponse` in the absent library crate):
`UpdateServers` is the full list snapshot, `UpdateServer` one resource's
snapshot, `Error` a typed error. -/
inductive CommandResponse
  | UpdateServers (data : List ServerData)
  | UpdateServer (id : Nat) (data : ServerData)
  | Error (e : CmdError)
deriving DecidableEq, Repr

/-- `CommandResult` from the absent library crate:
`Result<CommandResponse, CmdError>`. -/
abbrev CommandResult := Except CmdError CommandResponse

instance {ε α : Type} [DecidableEq ε] [DecidableEq α] : DecidableEq (Except ε α)
  | Except.ok a, Except.ok b =>
    if h : a = b then isTrue (by rw [h]) else isFalse (by intro hh; cases hh; exact h rfl)
  | Except.ok _, Except.error _ => isFalse (by intro h; cases h)
  | Except.error _, Except.ok _ => isFalse (by intro h; cases h)
  | Except.error a, Except.error b =>
    if h : a = b then isTrue (by rw [h]) else isFalse (by intro hh; cases hh; exact h rfl)

/-! ## Wire format

Modelled from the spec: a compact binary self-describing encoding
(`serde_cbor` in the absent library crate): a tag token followed by the
payload, length-prefixed for variable-size parts.  Tokens are `Nat`. -/

def encodeStatus : Status → Nat
  | Status.Stopped => 0
  | Status.Starting => 1
  | Status.Running => 2
  | Status.Stopping => 3

def decodeStatus : Nat → Option Status
  | 0 => some Status.Stopped
  | 1 => some Status.Starting
  | 2 => some Status.Running
  | 3 => some Status.Stopping
  | _ => none

def encodeErr : CmdError → Nat
  | CmdError.lockPoisoned => 0
  | CmdError.startFailed => 1
  | CmdError.stopFailed => 2
  | CmdError.resourceNotFound => 3

def decodeErr : Nat → Option CmdError
  | 0 => some CmdError.lockPoisoned
  | 1 => some CmdError.startFailed
  | 2 => some CmdError.stopFailed
  | 3 => some CmdError.resourceNotFound
  | _ => none

/-- Read exactly `n` raw tokens off the stream. -/
def decodeChunk : Nat → List Nat → Option (List Nat × List Nat)
  | 0, ts => some ([], ts)
  | _ + 1, [] => none
  | n + 1, t :: ts =>
    match decodeChunk n ts with
    | none => none
    | some (cs, r) => some (t :: cs, r)

def encodeServerData (d : ServerData) : List Nat :=
  d.id :: encodeStatus d.status :: d.config.length :: d.config

def decodeServerData : List Nat → Option (ServerData × List Nat)
  | i :: st :: n :: ts =>
    match decodeStatus st with
    | none => none
    | some s =>
      match decodeChunk n ts with
      | none => none
      | some (cfg, r) => some ({ id := i, config := cfg, status := s }, r)
  | _ => none

/-- Read exactly `n` consecutive `ServerData` records. -/
def decodeServerDataList : Nat → List Nat → Option (List ServerData × List Nat)
  | 0, ts => some ([], ts)
  | n + 1, ts =>
    match decodeServerData ts with
    | none => none
    | some (d, r) =>
      match decodeServerDataList n r with
      | none => none
      | some (ds, r2) => some (d :: ds, r2)

def encodeCommand : Command → List Nat
  | Command.GetServers => [0]
  | Command.StartServer id => [1, id]
  | Command.StopServer id => [2, id]

/-- Full-consumption decode of a `Command`, as `serde_cbor::from_slice`. -/
def decodeCommand : List Nat → Option Command
  | [0] => some Command.GetServers
  | [1, id] => some (Command.StartServer id)
  | [2, id] => some (Command.StopServer id)
  | _ => none

def encodeResponse : CommandResponse → List Nat
  | CommandResponse.UpdateServers ds =>
    0 :: ds.length :: (ds.map encodeServerData).flatten
  | CommandResponse.UpdateServer id d => 1 :: id :: encodeServerData d
  | CommandResponse.Error e => [2, encodeErr e]

/-- Full-consumption decode of a `CommandResponse`. -/
def decodeResponse : List Nat → Option CommandResponse
  | 0 :: n :: ts =>
    match decodeServerDataList n ts with
    | none => none
    | some (ds, r) => if r = [] then some (CommandResponse.UpdateServers ds) else none
  | 1 :: id :: ts =>
    match decodeServerData ts with
    | none => none
    | some (d, r) => if r = [] then some (CommandResponse.UpdateServer id d) else none
  | [2, e] =>
    match decodeErr e with
    | none => none
    | some err => some (CommandResponse.Error err)
  | _ => none

/-! ### Round-trip lemmas -/

lemma decodeStatus_encodeStatus (s : Status) : decodeStatus (encodeStatus s) = some s := by
  cases s <;> rfl

lemma decodeErr_encodeErr (e : CmdError) : decodeErr (encodeErr e) = some e := by
  cases e <;> rfl

lemma decodeChunk_append (l r : List Nat) : decodeChunk l.length (l ++ r) = some (l, r) := by
  induction l with
  | nil => rfl
  | cons t ts ih => simp [decodeChunk, ih]

lemma decodeServerData_append (d : ServerData) (r : List Nat) :
    decodeServerData (encodeServerData d ++ r) = some (d, r) := by
  simp [encodeServerData, decodeServerData, decodeStatus_encodeStatus, decodeChunk_append]

lemma decodeServerDataList_append (ds : List ServerData) (r : List Nat) :
    decodeServerDataList ds.length ((ds.map encodeServerData).flatten ++ r) = some (ds, r) := by
  induction ds with
  | nil => rfl
  | cons d tl ih =>
    simp only [List.map_cons, List.flatten_cons, List.length_cons, List.append_assoc]
    simp [decodeServerDataList, decodeServerData_append, ih]

lemma decodeCommand_encodeCommand (c : Command) : decodeCommand (encodeCommand c) = some c := by
  cases c <;> rfl

lemma decodeResponse_encodeResponse (res : CommandResponse) :
    decodeResponse (encodeResponse res) = some res := by
  cases res with
  | UpdateServers ds =>
    have h := decodeServerDataList_append ds []
    simp only [List.append_nil] at h
    simp [encodeResponse, decodeResponse, h]
  | UpdateServer id d =>
    have h := decodeServerData_append d []
    simp only [List.append_nil] at h
    simp [encodeResponse, decodeResponse, h]
  | Error e =>
    simp [encodeResponse, decodeResponse, decodeErr_encodeErr]

/-! ## Execution model

A Rust panic is `Exec.crash`; the crash kind records which panicking
primitive fired: a raw `Vec` index out of bounds, or `.unwrap()` on an
`Err` value (including a poisoned-lock acquisition). -/

/-- The panicking primitives visible in the two `main.rs` files. -/
inductive Crash
  | indexOutOfBounds
  | unwrapFailed
deriving DecidableEq, Repr

/-- Result of running a fragment of Rust code: normal return or panic. -/
inductive Exec (α : Type) : Type
  | ok (a : α)
  | crash (c : Crash)
deriving DecidableEq, Repr

/-- `server::Server` (from the absent `server.rs` module): the public
`data` snapshot plus a process handle opaque to the core. -/
structure Server where
  data : ServerData
deriving DecidableEq, Repr

/-- Modelled from the spec: `Server::start` from the absent `server.rs`.
Starting an already-`Running` server is a no-op returning the current
snapshot; otherwise the lifecycle collaborator is asked to begin the
start (`began` is its outcome), the status is optimistically set to
`Starting`, and the new snapshot is returned — a collaborator failure is
returned as the command error. -/
def Server.start (began : Bool) (s : Server) : Server × CommandResult :=
  if s.data.status = Status.Running then
    (s, Except.ok (CommandResponse.UpdateServer s.data.id s.data))
  else if began then
    let d := { s.data with status := Status.Starting }
    ({ data := d }, Except.ok (CommandResponse.UpdateServer d.id d))
  else
    (s, Except.error CmdError.startFailed)

/-- Modelled from the spec: `Server::stop` from the absent `server.rs`.
Stopping an already-`Stopped` server is a no-op returning the current
snapshot; otherwise the collaborator is asked to begin the stop (`began`
its outcome), the status is optimistically set to `Stopping`, and the
new snapshot is returned — a collaborator failure is returned as the
command error. -/
def Server.stop (began : Bool) (s : Server) : Server × CommandResult :=
  if s.data.status = Status.Stopped then
    (s, Except.ok (CommandResponse.UpdateServer s.data.id s.data))
  else if began then
    let d := { s.data with status := Status.Stopping }
    ({ data := d }, Except.ok (CommandResponse.UpdateServer d.id d))
  else
    (s, Except.error CmdError.stopFailed)

/-- The shared daemon state behind the `RwLock`/`Mutex` (`struct State`
in both variants): the server registry, plus the poison flag of the lock
guarding it (`true` after a thread panicked while holding it).  The
`tx`/`clients` channel fields of the Rust struct are modelled separately
as explicit subscriber lists. -/
structure DaemonState where
  servers : List Server
  poisoned : Bool
deriving DecidableEq, Repr

/-- `State::new` (both variants): one server per configuration entry,
ids assigned from configuration order. -/
def DaemonState.new (cfgs : List (List Nat)) : DaemonState :=
  { servers := (List.range cfgs.length).map
      (fun id => { data := ServerData.new id (cfgs.getD id []) }),
    poisoned := false }

/-- `run_command` of `barista-daemon/src/main.rs` (lines 114-130).  Each
arm first acquires the lock (`state.read()?` / `state.write()?`): on a
poisoned lock the `?` returns the converted error, which is why the
poison test comes first.  `lock.servers[id]` is a raw `Vec` index: out of
range it panics, so the model crashes with `indexOutOfBounds` rather
than producing a typed error.  `began` is the lifecycle collaborator's
outcome threaded into `Server.start`/`Server.stop`. -/
def runCommandB (began : Bool) (cmd : Command) (st : DaemonState) :
    Exec (DaemonState × CommandResult) :=
  if st.poisoned then Exec.ok (st, Except.error CmdError.lockPoisoned)
  else
    match cmd with
    | Command.GetServers =>
      Exec.ok (st, Except.ok (CommandResponse.UpdateServers (st.servers.map (fun s => s.data))))
    | Command.StartServer id =>
      match st.servers[id]? with
      | none => Exec.crash Crash.indexOutOfBounds
      | some s =>
        let (s2, r) := s.start began
        Exec.ok ({ st with servers := st.servers.set id s2 }, r)
    | Command.StopServer id =>
      match st.servers[id]? with
      | none => Exec.crash Crash.indexOutOfBounds
      | some s =>
        let (s2, r) := s.stop began
        Exec.ok ({ st with servers := st.servers.set id s2 }, r)

/-- `run_command` of `mined/src/main.rs` (lines 103-123).  Identical to
the barista variant except the `StopServer` arm: it calls
`server.stop()` with the result discarded (`server.stop();`) and always
answers `Ok(CommandResponse::UpdateServer(id, server.data.clone()))`. -/
def runCommandM (began : Bool) (cmd : Command) (st : DaemonState) :
    Exec (DaemonState × CommandResult) :=
  if st.poisoned then Exec.ok (st, Except.error CmdError.lockPoisoned)
  else
    match cmd with
    | Command.GetServers =>
      Exec.ok (st, Except.ok (CommandResponse.UpdateServers (st.servers.map (fun s => s.data))))
    | Command.StartServer id =>
      match st.servers[id]? with
      | none => Exec.crash Crash.indexOutOfBounds
      | some s =>
        let (s2, r) := s.start began
        Exec.ok ({ st with servers := st.servers.set id s2 }, r)
    | Command.StopServer id =>
      match st.servers[id]? with
      | none => Exec.crash Crash.indexOutOfBounds
      | some s =>
        let (s2, _) := s.stop began
        Exec.ok ({ st with servers := st.servers.set id s2 },
          Except.ok (CommandResponse.UpdateServer id s2.data))

/-- An inbound websocket frame. -/
inductive Frame
  | binary (bytes : List Nat)
  | text
deriving DecidableEq, Repr

/-- `WebsocketError` (both variants); payloads dropped. -/
inductive WebsocketError
  | NotBinary
  | ParseError
  | WarpError
deriving DecidableEq, Repr

/-- `serialize_ws` of `barista-daemon/src/main.rs` (lines 132-134) and the
inlined serialization in mined's `serve_ws`: CBOR-encode a response into
a binary message.  The modelled encoding is total, matching
`serde_cbor::to_vec` never failing on these types. -/
def serializeWs (res : CommandResponse) : List Nat :=
  encodeResponse res

/-- `serve_ws` (barista lines 136-153, mined lines 125-144): reject
non-binary frames, decode the command (`ParseError` on failure), run it;
a command-level `Err` is logged and wrapped as `CommandResponse::Error`
and still serialized as an ordinary reply.  A panic inside `run_command`
propagates. -/
def serveWs (began : Bool) (f : Frame) (st : DaemonState)
    (run : Bool → Command → DaemonState → Exec (DaemonState × CommandResult)) :
    Exec (DaemonState × Except WebsocketError (List Nat)) :=
  match f with
  | Frame.text => Exec.ok (st, Except.error WebsocketError.NotBinary)
  | Frame.binary bs =>
    match decodeCommand bs with
    | none => Exec.ok (st, Except.error WebsocketError.ParseError)
    | some cmd =>
      match run began cmd st with
      | Exec.crash c => Exec.crash c
      | Exec.ok (st2, Except.ok res) => Exec.ok (st2, Except.ok (serializeWs res))
      | Exec.ok (st2, Except.error e) =>
        Exec.ok (st2, Except.ok (serializeWs (CommandResponse.Error e)))

/-- `serve_ws` of `barista-daemon/src/main.rs`: dispatches to barista's
`run_command`. -/
def serveWsB (began : Bool) (f : Frame) (st : DaemonState) :
    Exec (DaemonState × Except WebsocketError (List Nat)) :=
  serveWs began f st runCommandB

/-- `serve_ws` of `mined/src/main.rs`: dispatches to mined's
`run_command`. -/
def serveWsM (began : Bool) (f : Frame) (st : DaemonState) :
    Exec (DaemonState × Except WebsocketError (List Nat)) :=
  serveWs began f st runCommandM

/-! ## Subscriber hub -/

/-- One subscriber's outbound channel: `closed` is true once the peer is
gone (so a send fails), `inbox` the messages delivered so far. -/
structure Client where
  closed : Bool
  inbox : List (List Nat)
deriving DecidableEq, Repr

/-- A channel send (`UnboundedSender::send` / `SplitSink::send`): `none`
when the channel is closed, otherwise the message is delivered. -/
def sendClient (m : List Nat) (c : Client) : Option Client :=
  if c.closed then none else some { c with inbox := c.inbox ++ [m] }

/-- The broadcast loop shared by barista's `update_clients`
(`main.rs` lines 227-236: `client.send(Ok(msg.clone())).unwrap()`) and
mined's runtime task (`main.rs` lines 215-231:
`c.send(msg.clone()).await.unwrap()`, under the comment
`FIXME remove clients from the list when they disconnect otherwise this
will panic`): every send result is unwrapped, so the first closed
subscriber panics the loop; no subscriber is ever removed. -/
def broadcastUnwrap (m : List Nat) : List Client → Exec (List Client)
  | [] => Exec.ok []
  | c :: cs =>
    match sendClient m c with
    | none => Exec.crash Crash.unwrapFailed
    | some c2 =>
      match broadcastUnwrap m cs with
      | Exec.crash cr => Exec.crash cr
      | Exec.ok cs2 => Exec.ok (c2 :: cs2)

/-- Barista `handle_ws` registration (lines 166-169):
`state.write().unwrap()` then `lock.clients.push(tx.clone())` — on a
poisoned lock the `unwrap` panics. -/
def registerClientB (st : DaemonState) (clients : List Client) (c : Client) :
    Exec (List Client) :=
  if st.poisoned then Exec.crash Crash.unwrapFailed
  else Exec.ok (clients ++ [c])

/-! ## Connection handler -/

/-- Processing of one inbound `Ok` frame in barista's `handle_ws` loop
(lines 171-193): run `serve_ws`; a websocket-level error (non-binary or
undecodable frame) is logged and the loop continues with nothing sent;
a reply is sent on this connection's own `tx`
(`tx.send(Ok(response)).unwrap()`).  `others` are the other connections'
channels held by the hub: the body never touches them. -/
def baristaHandleFrame (began : Bool) (f : Frame) (st : DaemonState) (conn : Client)
    (others : List Client) : Exec (DaemonState × Client × List Client) :=
  match serveWsB began f st with
  | Exec.crash c => Exec.crash c
  | Exec.ok (st2, Except.error _) => Exec.ok (st2, conn, others)
  | Exec.ok (st2, Except.ok m) =>
    match sendClient m conn with
    | none => Exec.crash Crash.unwrapFailed
    | some c2 => Exec.ok (st2, c2, others)

/-- Processing of one inbound `Ok` frame in mined's `handle_ws` loop
(lines 154-171) together with the runtime task's `Msg` branch (lines
221-227): a successful reply is sent as `RuntimeMsg::Msg` on the shared
state channel (`state.lock().unwrap()` first — panics if poisoned), and
the runtime task then broadcasts it to every registered client. -/
def minedHandleFrame (began : Bool) (f : Frame) (st : DaemonState)
    (clients : List Client) : Exec (DaemonState × List Client) :=
  match serveWsM began f st with
  | Exec.crash c => Exec.crash c
  | Exec.ok (st2, Except.error _) => Exec.ok (st2, clients)
  | Exec.ok (st2, Except.ok m) =>
    if st2.poisoned then Exec.crash Crash.unwrapFailed
    else
      match broadcastUnwrap m clients with
      | Exec.crash c => Exec.crash c
      | Exec.ok cs => Exec.ok (st2, cs)

/-- One item observed by a connection loop: a successfully read frame, or
a transport-level read error (`Err` from the websocket stream). -/
inductive InItem
  | frame (f : Frame)
  | transportErr
deriving DecidableEq, Repr

/-- Barista `handle_ws` receive loop (lines 171-193) over a finite
inbound sequence: `Ok(msg)` frames are handled (protocol errors logged,
loop continues); `Err(e)` logs and `return`s, terminating the loop — the
final `Bool` records that the loop ended on a transport error rather
than on normal stream end. -/
def baristaConnLoop (began : Bool) :
    List InItem → DaemonState → Client → List Client →
    Exec (DaemonState × Client × List Client × Bool)
  | [], st, conn, others => Exec.ok (st, conn, others, false)
  | InItem.transportErr :: _, st, conn, others => Exec.ok (st, conn, others, true)
  | InItem.frame f :: rest, st, conn, others =>
    match baristaHandleFrame began f st conn others with
    | Exec.crash c => Exec.crash c
    | Exec.ok (st2, c2, os2) => baristaConnLoop began rest st2 c2 os2

/-- Mined `handle_ws` receive loop (lines 154-171) over a finite inbound
sequence: both protocol errors and transport-level `Err` items fall into
the `Err(e) => error!` arm and the loop continues; only stream end
(`None`) breaks the loop. -/
def minedConnLoop (began : Bool) :
    List InItem → DaemonState → List Client → Exec (DaemonState × List Client)
  | [], st, clients => Exec.ok (st, clients)
  | InItem.transportErr :: rest, st, clients => minedConnLoop began rest st clients
  | InItem.frame f :: rest, st, clients =>
    match minedHandleFrame began f st clients with
    | Exec.crash c => Exec.crash c
    | Exec.ok (st2, cs) => minedConnLoop began rest st2 cs

/-! ## Change poller (barista only) -/

/-- `Duration::from_secs(5)` in barista's `update_servers` (line 201). -/
def pollIntervalSeconds : Nat := 5

/-- Modelled from the spec: `Server::update_status` from the absent
`server.rs` — query the lifecycle collaborator for the real current
status (`fresh`), record it via `set_status`, and return whether it
differed from the previously recorded status. -/
def Server.update_status (fresh : Status) (s : Server) : Server × Bool :=
  if s.data.status = fresh then (s, false)
  else ({ data := { s.data with status := fresh } }, true)

/-- One tick of barista's `update_servers` (lines 203-224), with the
collaborator's freshly queried status paired to each server: for each
server run `update_status`; when it reports a change, serialize
`CommandResponse::UpdateServer(data.id, data)` from the updated snapshot
and push it on the hub channel.  Returns the updated registry and the
pushed events in order.  (`serialize_ws` is total here, so the
`Err` + `break` arm of the Rust loop is unreachable.) -/
def updateServersTick : List (Server × Status) → List Server × List (List Nat)
  | [] => ([], [])
  | (s, fresh) :: rest =>
    let (s2, changed) := s.update_status fresh
    let (servers, events) := updateServersTick rest
    (s2 :: servers,
      (if changed then [serializeWs (CommandResponse.UpdateServer s2.data.id s2.data)] else [])
        ++ events)

/-! ## Startup configuration check -/

/-- `ServerError` (both variants); payloads dropped. -/
inductive ServerError
  | InvalidConfig
  | InvalidConfigVersion
  | IoError
deriving DecidableEq, Repr

/-- `static CONFIG_VERSION: u64 = 1` (both variants). -/
def CONFIG_VERSION : Nat := 1

/-- The version check of barista's `server_init` (lines 248-256):
`match config.version.cmp(&CONFIG_VERSION)` — `Greater` returns the
fatal `InvalidConfigVersion`, `Less` warns and continues, `Equal`
continues silently.  `Except.ok b` means startup continues, with `b`
recording whether the outdated-config warning was logged. -/
def checkConfigVersionB (v : Nat) : Except ServerError Bool :=
  match compare v CONFIG_VERSION with
  | Ordering.gt => Except.error ServerError.InvalidConfigVersion
  | Ordering.lt => Except.ok true
  | Ordering.eq => Except.ok false

/-- The version check of mined's `server_init` (lines 207-211):
`if config.version > CONFIG_VERSION` returns the fatal error,
`else if config.version < CONFIG_VERSION` warns, else continues. -/
def checkConfigVersionM (v : Nat) : Except ServerError Bool :=
  if v > CONFIG_VERSION then Except.error ServerError.InvalidConfigVersion
  else if v < CONFIG_VERSION then Except.ok true
  else Except.ok false

/-! ## Helper lemmas -/

/-- Writing back the element already stored at an index leaves the list
unchanged. -/
lemma set_of_getElem_eq {α : Type} :
    ∀ (l : List α) (n : Nat) (a : α), l[n]? = some a → l.set n a = l
  | [], _, _, h => by simp at h
  | x :: xs, 0, a, h => by
    simp at h
    simp [List.set, h]
  | x :: xs, n + 1, a, h => by
    simp at h
    simpa [List.set] using set_of_getElem_eq xs n a h

/-! ## Claims -/

/-- C8: encoding then decoding any `Command` or `CommandResponse` value
yields a value equal to the original. -/
theorem C8_wire_roundtrip :
    (∀ c : Command, decodeCommand (encodeCommand c) = some c) ∧
    (∀ res : CommandResponse, decodeResponse (encodeResponse res) = some res) :=
  ⟨decodeCommand_encodeCommand, decodeResponse_encodeResponse⟩

/-- C9: at startup, a config format version greater than the supported
`CONFIG_VERSION` is the fatal `InvalidConfigVersion` error (startup does
not continue); a lower version continues with only the non-fatal
outdated-config warning; an equal version continues with neither — in
both variants. -/
theorem C9_config_version_check (v : Nat) :
    checkConfigVersionB v =
      (if CONFIG_VERSION < v then Except.error ServerError.InvalidConfigVersion
       else if v < CONFIG_VERSION then Except.ok true
       else Except.ok false) ∧
    checkConfigVersionM v = checkConfigVersionB v := by
  have hB : checkConfigVersionB v =
      (if CONFIG_VERSION < v then Except.error ServerError.InvalidConfigVersion
       else if v < CONFIG_VERSION then Except.ok true
       else Except.ok false) := by
    unfold checkConfigVersionB
    rcases Nat.lt_trichotomy v CONFIG_VERSION with h | h | h
    · rw [Nat.compare_eq_lt.mpr h]
      simp [h, Nat.lt_asymm h]
    · rw [h, Nat.compare_eq_eq.mpr rfl]
      simp
    · rw [Nat.compare_eq_gt.mpr h]
      simp [h]
  refine ⟨hB, ?_⟩
  rw [hB]
  unfold checkConfigVersionM
  rcases Nat.lt_trichotomy v CONFIG_VERSION with h | h | h
  · simp [h, Nat.lt_asymm h, Nat.not_lt_of_lt h]
  · simp [h]
  · simp [h, Nat.lt_asymm h, Nat.not_lt_of_lt h]

/-- C5: the change poller runs on a fixed 5-second interval, and on each
tick, for every server, it emits a serialized
`CommandResponse::UpdateServer(id, snapshot)` event carrying the fresh
snapshot if and only if the freshly queried status differs from the
recorded one — an unchanged status contributes no event. -/
theorem C5_poller_emits_iff_changed (pairs : List (Server × Status)) :
    pollIntervalSeconds = 5 ∧
    (updateServersTick pairs).2 = pairs.filterMap (fun p =>
      if p.1.data.status = p.2 then none
      else some (serializeWs (CommandResponse.UpdateServer p.1.data.id
        { p.1.data with status := p.2 }))) := by
  refine ⟨rfl, ?_⟩
  induction pairs with
  | nil => rfl
  | cons p rest ih =>
    obtain ⟨s, fresh⟩ := p
    by_cases h : s.data.status = fresh
    · simp [updateServersTick, Server.update_status, h, ih]
    · simp [updateServersTick, Server.update_status, h, ih]

/-- C1: the claim's invalid-id branch does not exist in the code: with
N = 3 configured servers, `StopServer(5)` hits the raw `Vec` index
`lock.servers[id]`, which panics with an out-of-bounds access in both
variants — there is no `Error(ResourceNotFound)` response.  For an
in-range id the command does resolve to a snapshot with the matching id
(last conjunct, at id 1). -/
theorem C1_out_of_range_panics :
    runCommandB true (Command.StopServer 5) (DaemonState.new [[0], [1], [2]]) =
      Exec.crash Crash.indexOutOfBounds ∧
    runCommandM true (Command.StopServer 5) (DaemonState.new [[0], [1], [2]]) =
      Exec.crash Crash.indexOutOfBounds ∧
    runCommandB true (Command.StartServer 1) (DaemonState.new [[0], [1], [2]]) =
      Exec.ok ({ servers := [{ data := ServerData.new 0 [0] },
                             { data := { id := 1, config := [1], status := Status.Starting } },
                             { data := ServerData.new 2 [2] }],
                 poisoned := false },
        Except.ok (CommandResponse.UpdateServer 1
          { id := 1, config := [1], status := Status.Starting })) := by
  refine ⟨by decide, by decide, by decide⟩

/-- C2: the claim fails in the code: the broadcast loop unwraps every
send result, so the first closed subscriber panics the whole loop —
delivery to the remaining subscribers is aborted and the dead subscriber
is never removed (both variants share this loop; mined's copy carries a
FIXME admitting the panic).  First conjunct: a closed subscriber ahead
of a live one panics the broadcast.  Second conjunct: the panic also
fires after delivering to the subscribers ahead of the dead one, so a
broadcast can be cut short halfway. -/
theorem C2_broadcast_panics_on_closed :
    broadcastUnwrap [9] [{ closed := true, inbox := [] },
                         { closed := false, inbox := [] }] =
      Exec.crash Crash.unwrapFailed ∧
    broadcastUnwrap [9] [{ closed := false, inbox := [] },
                         { closed := true, inbox := [] }] =
      Exec.crash Crash.unwrapFailed := by
  refine ⟨by decide, by decide⟩

/-- C6: for a valid id, `StartServer` on a server already `Running` and
`StopServer` on a server already `Stopped` are no-ops in both variants:
the registry state is returned unchanged, the response is the current
snapshot (an `Ok`, not an `Error`), and the poller's next comparison
sees no status change for these servers, so no broadcast event is
emitted for them. -/
theorem C6_idempotent_start_stop (began : Bool) (st : DaemonState) (i j : Nat)
    (s t : Server) (hp : st.poisoned = false)
    (hs : st.servers[i]? = some s) (hrun : s.data.status = Status.Running)
    (ht : st.servers[j]? = some t) (hstop : t.data.status = Status.Stopped) :
    runCommandB began (Command.StartServer i) st =
      Exec.ok (st, Except.ok (CommandResponse.UpdateServer s.data.id s.data)) ∧
    runCommandM began (Command.StartServer i) st =
      Exec.ok (st, Except.ok (CommandResponse.UpdateServer s.data.id s.data)) ∧
    runCommandB began (Command.StopServer j) st =
      Exec.ok (st, Except.ok (CommandResponse.UpdateServer t.data.id t.data)) ∧
    runCommandM began (Command.StopServer j) st =
      Exec.ok (st, Except.ok (CommandResponse.UpdateServer j t.data)) ∧
    (updateServersTick [(s, s.data.status), (t, t.data.status)]).2 = [] := by
  obtain ⟨sv, p⟩ := st
  simp only [DaemonState.poisoned] at hp
  subst hp
  simp only [DaemonState.servers] at hs ht
  have hsetS : sv.set i s = sv := set_of_getElem_eq _ _ _ hs
  have hsetT : sv.set j t = sv := set_of_getElem_eq _ _ _ ht
  refine ⟨?_, ?_, ?_, ?_, ?_⟩
  · simp [runCommandB, hs, Server.start, hrun, hsetS]
  · simp [runCommandM, hs, Server.start, hrun, hsetS]
  · simp [runCommandB, ht, Server.stop, hstop, hsetT]
  · simp [runCommandM, ht, Server.stop, hstop, hsetT]
  · simp [updateServersTick, Server.update_status]

/-- C6 witness: a two-server registry, server 0 `Running` and server 1
`Stopped`, instantiating the idempotence theorem. -/
theorem C6_idempotent_witness :
    (({ servers := [{ data := { id := 0, config := [], status := Status.Running } },
                    { data := { id := 1, config := [], status := Status.Stopped } }],
        poisoned := false } : DaemonState).poisoned = false ∧
     ({ servers := [{ data := { id := 0, config := [], status := Status.Running } },
                    { data := { id := 1, config := [], status := Status.Stopped } }],
        poisoned := false } : DaemonState).servers[0]? =
       some { data := { id := 0, config := [], status := Status.Running } } ∧
     ({ servers := [{ data := { id := 0, config := [], status := Status.Running } },
                    { data := { id := 1, config := [], status := Status.Stopped } }],
        poisoned := false } : DaemonState).servers[1]? =
       some { data := { id := 1, config := [], status := Status.Stopped } }) ∧
    (runCommandB true (Command.StartServer 0)
        { servers := [{ data := { id := 0, config := [], status := Status.Running } },
                      { data := { id := 1, config := [], status := Status.Stopped } }],
          poisoned := false } =
      Exec.ok ({ servers := [{ data := { id := 0, config := [], status := Status.Running } },
                             { data := { id := 1, config := [], status := Status.Stopped } }],
                 poisoned := false },
        Except.ok (CommandResponse.UpdateServer 0
          { id := 0, config := [], status := Status.Running }))) :=
  ⟨⟨by decide, by decide, by decide⟩,
   (C6_idempotent_start_stop true
     { servers := [{ data := { id := 0, config := [], status := Status.Running } },
                   { data := { id := 1, config := [], status := Status.Stopped } }],
       poisoned := false } 0 1
     { data := { id := 0, config := [], status := Status.Running } }
     { data := { id := 1, config := [], status := Status.Stopped } }
     (by decide) (by decide) (by decide) (by decide) (by decide)).1⟩

/-- C10: in the mined variant, a `StopServer(id)` on a valid id that
returns normally always answers `Ok(UpdateServer(id, snapshot))`: the
value returned by `server.stop()` is discarded, so a stop failure never
surfaces as an `Error` response — whereas barista's `StopServer` branch
returns `server.stop()`'s result directly, and (last conjunct) that
result is a genuine `Error` when the collaborator fails to begin a stop
of a non-`Stopped` server. -/
theorem C10_mined_stop_always_ok (began : Bool) (st : DaemonState) (id : Nat)
    (s : Server) (hp : st.poisoned = false) (hs : st.servers[id]? = some s) :
    runCommandM began (Command.StopServer id) st =
      Exec.ok ({ st with servers := st.servers.set id (s.stop began).1 },
        Except.ok (CommandResponse.UpdateServer id (s.stop began).1.data)) ∧
    runCommandB began (Command.StopServer id) st =
      Exec.ok ({ st with servers := st.servers.set id (s.stop began).1 },
        (s.stop began).2) ∧
    (s.data.status ≠ Status.Stopped → began = false →
      (s.stop began).2 = Except.error CmdError.stopFailed) := by
  refine ⟨?_, ?_, ?_⟩
  · simp [runCommandM, hp, hs]
  · simp [runCommandB, hp, hs]
  · intro hne hb
    subst hb
    simp [Server.stop, hne]

/-- C10 witness: one `Running` server whose stop attempt fails
(`began = false`): mined still answers `Ok(UpdateServer(0, ...))` while
barista surfaces the `stopFailed` error. -/
theorem C10_mined_stop_witness :
    (({ servers := [{ data := { id := 0, config := [], status := Status.Running } }],
        poisoned := false } : DaemonState).poisoned = false ∧
     ({ servers := [{ data := { id := 0, config := [], status := Status.Running } }],
        poisoned := false } : DaemonState).servers[0]? =
       some { data := { id := 0, config := [], status := Status.Running } }) ∧
    (runCommandM false (Command.StopServer 0)
        { servers := [{ data := { id := 0, config := [], status := Status.Running } }],
          poisoned := false } =
      Exec.ok ({ servers := [{ data := { id := 0, config := [], status := Status.Running } }],
                 poisoned := false },
        Except.ok (CommandResponse.UpdateServer 0
          { id := 0, config := [], status := Status.Running })) ∧
     runCommandB false (Command.StopServer 0)
        { servers := [{ data := { id := 0, config := [], status := Status.Running } }],
          poisoned := false } =
      Exec.ok ({ servers := [{ data := { id := 0, config := [], status := Status.Running } }],
                 poisoned := false },
        Except.error CmdError.stopFailed)) :=
  ⟨⟨by decide, by decide⟩,
   ⟨(C10_mined_stop_always_ok false
       { servers := [{ data := { id := 0, config := [], status := Status.Running } }],
         poisoned := false } 0
       { data := { id := 0, config := [], status := Status.Running } }
       (by decide) (by decide)).1,
    (C10_mined_stop_always_ok false
       { servers := [{ data := { id := 0, config := [], status := Status.Running } }],
         poisoned := false } 0
       { data := { id := 0, config := [], status := Status.Running } }
       (by decide) (by decide)).2.1⟩⟩

/-- C4 counterexample: with the registry lock poisoned, `serve_ws` on a
decoded `GetServers` returns normally in both variants with an ordinary
encoded reply — `CommandResponse::Error(lockPoisoned)` — destined for
the triggering observer; the process neither panics nor aborts, refuting
the claim that a poisoned registry access during command processing is
escalated as a fatal process error. -/
theorem C4_poisoned_counterexample :
    serveWsB true (Frame.binary (encodeCommand Command.GetServers))
      { servers := [], poisoned := true } =
      Exec.ok ({ servers := [], poisoned := true },
        Except.ok (serializeWs (CommandResponse.Error CmdError.lockPoisoned))) ∧
    serveWsM true (Frame.binary (encodeCommand Command.GetServers))
      { servers := [], poisoned := true } =
      Exec.ok ({ servers := [], poisoned := true },
        Except.ok (serializeWs (CommandResponse.Error CmdError.lockPoisoned))) := by
  refine ⟨by decide, by decide⟩

/-- C4 as amended: a poisoned registry access inside `run_command` is
converted by `?` into a command-level error and reported back to the
triggering observer as an ordinary `CommandResponse::Error` reply (both
variants, every command) — not escalated fatally; only poisoned lock
accesses outside command processing, such as barista's client
registration which calls `state.write().unwrap()`, panic. -/
theorem C4_poisoned_reported_as_response (began : Bool) (cmd : Command)
    (st : DaemonState) (hp : st.poisoned = true) :
    runCommandB began cmd st = Exec.ok (st, Except.error CmdError.lockPoisoned) ∧
    runCommandM began cmd st = Exec.ok (st, Except.error CmdError.lockPoisoned) ∧
    (∀ bs, decodeCommand bs = some cmd →
      serveWsB began (Frame.binary bs) st =
        Exec.ok (st, Except.ok (serializeWs (CommandResponse.Error CmdError.lockPoisoned))) ∧
      serveWsM began (Frame.binary bs) st =
        Exec.ok (st, Except.ok (serializeWs (CommandResponse.Error CmdError.lockPoisoned)))) ∧
    (∀ (clients : List Client) (c : Client),
      registerClientB st clients c = Exec.crash Crash.unwrapFailed) := by
  have hB : runCommandB began cmd st = Exec.ok (st, Except.error CmdError.lockPoisoned) := by
    simp [runCommandB, hp]
  have hM : runCommandM began cmd st = Exec.ok (st, Except.error CmdError.lockPoisoned) := by
    simp [runCommandM, hp]
  refine ⟨hB, hM, ?_, ?_⟩
  · intro bs hbs
    constructor
    · simp [serveWsB, serveWs, hbs, hB]
    · simp [serveWsM, serveWs, hbs, hM]
  · intro clients c
    simp [registerClientB, hp]

/-- C4 witness: the poisoned-lock theorem instantiated at a concrete
poisoned state with `GetServers`. -/
theorem C4_poisoned_witness :
    ({ servers := [], poisoned := true } : DaemonState).poisoned = true ∧
    runCommandB true Command.GetServers { servers := [], poisoned := true } =
      Exec.ok ({ servers := [], poisoned := true },
        Except.error CmdError.lockPoisoned) :=
  ⟨by decide,
   (C4_poisoned_reported_as_response true Command.GetServers
     { servers := [], poisoned := true } (by decide)).1⟩

/-- A broadcast over subscribers that are all still open delivers the
message to every one of them and returns normally. -/
lemma broadcastUnwrap_all_open (m : List Nat) :
    ∀ clients : List Client, (∀ c ∈ clients, c.closed = false) →
      broadcastUnwrap m clients =
        Exec.ok (clients.map (fun c => { c with inbox := c.inbox ++ [m] }))
  | [], _ => rfl
  | c :: cs, h => by
    have hc : c.closed = false := h c (List.mem_cons_self c cs)
    have ih := broadcastUnwrap_all_open m cs (fun x hx => h x (List.mem_cons_of_mem c hx))
    simp [broadcastUnwrap, sendClient, hc, ih]

/-- C3 counterexample: in the mined variant, with one server and two
connected observers (both registered with the runtime task), the first
observer sends `GetServers`; the reply is forwarded as
`RuntimeMsg::Msg` on the shared channel and broadcast, so the *second*
observer's inbox also ends up holding the `UpdateServers` reply —
refuting "only the sender receives the reply; the other receives
nothing for this command". -/
theorem C3_counterexample :
    minedHandleFrame true (Frame.binary (encodeCommand Command.GetServers))
      (DaemonState.new [[7]])
      [{ closed := false, inbox := [] }, { closed := false, inbox := [] }] =
    Exec.ok (DaemonState.new [[7]],
      [{ closed := false,
         inbox := [serializeWs (CommandResponse.UpdateServers [ServerData.new 0 [7]])] },
       { closed := false,
         inbox := [serializeWs (CommandResponse.UpdateServers [ServerData.new 0 [7]])] }]) := by
  decide

/-- C3 as amended: the two variants route replies differently.  In
barista-daemon the frame handler sends the reply only on this
connection's own channel and never touches the other connections'
channels (`os2 = others`); in mined the reply is sent to the shared
runtime channel, whose task broadcasts it to every registered client, so
every connected observer — not only the sender — receives it. -/
theorem C3_reply_routing (began : Bool) (f : Frame) (st stB stM : DaemonState)
    (conn c2 : Client) (others os2 : List Client) (m : List Nat)
    (clients : List Client)
    (hb : baristaHandleFrame began f st conn others = Exec.ok (stB, c2, os2))
    (hm : serveWsM began f st = Exec.ok (stM, Except.ok m))
    (hp : stM.poisoned = false)
    (hopen : ∀ c ∈ clients, c.closed = false) :
    os2 = others ∧
    minedHandleFrame began f st clients =
      Exec.ok (stM, clients.map (fun c => { c with inbox := c.inbox ++ [m] })) := by
  constructor
  · unfold baristaHandleFrame at hb
    split at hb
    · cases hb
    · simp only [Exec.ok.injEq, Prod.mk.injEq] at hb
      exact hb.2.2.symm
    · split at hb
      · cases hb
      · simp only [Exec.ok.injEq, Prod.mk.injEq] at hb
        exact hb.2.2.symm
  · unfold minedHandleFrame
    rw [hm]
    simp [hp, broadcastUnwrap_all_open m clients hopen]

/-- C3 witness: the routing theorem instantiated with one server, a
sending connection, and two open registered clients. -/
theorem C3_reply_routing_witness :
    (baristaHandleFrame true (Frame.binary (encodeCommand Command.GetServers))
        (DaemonState.new [[7]]) { closed := false, inbox := [] }
        [{ closed := false, inbox := [] }] =
      Exec.ok (DaemonState.new [[7]],
        { closed := false,
          inbox := [serializeWs (CommandResponse.UpdateServers [ServerData.new 0 [7]])] },
        [{ closed := false, inbox := [] }]) ∧
     serveWsM true (Frame.binary (encodeCommand Command.GetServers))
        (DaemonState.new [[7]]) =
      Exec.ok (DaemonState.new [[7]],
        Except.ok (serializeWs (CommandResponse.UpdateServers [ServerData.new 0 [7]]))) ∧
     (DaemonState.new [[7]]).poisoned = false) ∧
    ([{ closed := false, inbox := [] }] =
       ([{ closed := false, inbox := [] }] : List Client) ∧
     minedHandleFrame true (Frame.binary (encodeCommand Command.GetServers))
        (DaemonState.new [[7]])
        [{ closed := false, inbox := [] }, { closed := false, inbox := [] }] =
      Exec.ok (DaemonState.new [[7]],
        ([{ closed := false, inbox := [] },
           { closed := false, inbox := [] }] : List Client).map
          (fun c => { c with inbox := c.inbox ++
            [serializeWs (CommandResponse.UpdateServers [ServerData.new 0 [7]])] }))) :=
  ⟨⟨by decide, by decide, by decide⟩,
   C3_reply_routing true (Frame.binary (encodeCommand Command.GetServers))
     (DaemonState.new [[7]]) (DaemonState.new [[7]]) (DaemonState.new [[7]])
     { closed := false, inbox := [] }
     { closed := false,
       inbox := [serializeWs (CommandResponse.UpdateServers [ServerData.new 0 [7]])] }
     [{ closed := false, inbox := [] }] [{ closed := false, inbox := [] }]
     (serializeWs (CommandResponse.UpdateServers [ServerData.new 0 [7]]))
     [{ closed := false, inbox := [] }, { closed := false, inbox := [] }]
     (by decide) (by decide) (by decide) (by decide)⟩

/-- C7 counterexample: in the mined variant a transport-level read error
does *not* terminate the connection loop: with inbound sequence
[transport error, GetServers frame], the loop logs the error, continues,
processes the following frame, and the reply is delivered — refuting
"only a transport-level read error terminates the connection loop" as a
property of both variants. -/
theorem C7_counterexample :
    minedConnLoop true
      [InItem.transportErr, InItem.frame (Frame.binary (encodeCommand Command.GetServers))]
      (DaemonState.new [[7]]) [{ closed := false, inbox := [] }] =
    Exec.ok (DaemonState.new [[7]],
      [{ closed := false,
         inbox := [serializeWs (CommandResponse.UpdateServers [ServerData.new 0 [7]])] }]) := by
  decide

/-- C7 as amended: in both variants a non-binary or undecodable inbound
frame is logged and discarded — no reply is sent for it, the connection
stays open, and the loop continues with the remaining items (first two
conjuncts: the loop on `frame f :: rest` equals the loop on `rest`,
same state, same channels).  A transport-level read error terminates the
loop in barista-daemon (third conjunct), but in mined it is logged and
the loop continues, terminating only at stream end (fourth conjunct). -/
theorem C7_frame_error_handling (began : Bool) (f : Frame) (st : DaemonState)
    (rest : List InItem) (conn : Client) (others clients : List Client)
    (hpe : f = Frame.text ∨ ∃ bs, f = Frame.binary bs ∧ decodeCommand bs = none) :
    baristaConnLoop began (InItem.frame f :: rest) st conn others =
      baristaConnLoop began rest st conn others ∧
    minedConnLoop began (InItem.frame f :: rest) st clients =
      minedConnLoop began rest st clients ∧
    baristaConnLoop began (InItem.transportErr :: rest) st conn others =
      Exec.ok (st, conn, others, true) ∧
    minedConnLoop began (InItem.transportErr :: rest) st clients =
      minedConnLoop began rest st clients := by
  have hB : ∃ e, serveWsB began f st = Exec.ok (st, Except.error e) := by
    rcases hpe with h | ⟨bs, hf, hd⟩
    · exact ⟨WebsocketError.NotBinary, by simp [h, serveWsB, serveWs]⟩
    · exact ⟨WebsocketError.ParseError, by simp [hf, serveWsB, serveWs, hd]⟩
  have hM : ∃ e, serveWsM began f st = Exec.ok (st, Except.error e) := by
    rcases hpe with h | ⟨bs, hf, hd⟩
    · exact ⟨WebsocketError.NotBinary, by simp [h, serveWsM, serveWs]⟩
    · exact ⟨WebsocketError.ParseError, by simp [hf, serveWsM, serveWs, hd]⟩
  obtain ⟨eB, hsB⟩ := hB
  obtain ⟨eM, hsM⟩ := hM
  refine ⟨?_, ?_, rfl, rfl⟩
  · simp [baristaConnLoop, baristaHandleFrame, hsB]
  · simp [minedConnLoop, minedHandleFrame, hsM]

/-- C7 witness: the frame-handling theorem instantiated with a text
(non-binary) frame, the empty remaining stream, and one registered
client. -/
theorem C7_frame_error_witness :
    (Frame.text = Frame.text ∨
      ∃ bs, Frame.text = Frame.binary bs ∧ decodeCommand bs = none) ∧
    (baristaConnLoop true [InItem.frame Frame.text] (DaemonState.new [[7]])
        { closed := false, inbox := [] } [] =
      baristaConnLoop true [] (DaemonState.new [[7]])
        { closed := false, inbox := [] } [] ∧
     minedConnLoop true [InItem.frame Frame.text] (DaemonState.new [[7]])
        [{ closed := false, inbox := [] }] =
      minedConnLoop true [] (DaemonState.new [[7]])
        [{ closed := false, inbox := [] }] ∧
     baristaConnLoop true [InItem.transportErr] (DaemonState.new [[7]])
        { closed := false, inbox := [] } [] =
      Exec.ok (DaemonState.new [[7]], { closed := false, inbox := [] }, [], true) ∧
     minedConnLoop true [InItem.transportErr] (DaemonState.new [[7]])
        [{ closed := false, inbox := [] }] =
      minedConnLoop true [] (DaemonState.new [[7]])
        [{ closed := false, inbox := [] }]) :=
  ⟨Or.inl rfl,
   C7_frame_error_handling true Frame.text (DaemonState.new [[7]]) []
     { closed := false, inbox := [] } [] [{ closed := false, inbox := [] }]
     (Or.inl rfl)⟩

end Minecraft
